import Mathlib

/-!
Shallow embedding of the dependency-resolution core of
`src/databricks/labs/ucx/source_code/linters/files.py`, together with a
spec-modelled resolver chain and migration sequencer (whose code lives
outside the provided sources), and proofs of the specified properties.

Paths are modelled as posix strings; the filesystem and the workspace
path-lookup are abstract data (`PathLookup.resolve : String → Option String`),
mirroring that the Python code only ever probes paths through its
`path_lookup` collaborator.
-/

namespace UCX

/-- `DependencyProblem` — `{ code, message }`, returned as data, never raised. -/
structure DependencyProblem where
  code : String
  message : String
deriving DecidableEq, Repr

/-- The three loader kinds dispatched in `files.py` (notebook, file, folder). -/
inductive Loader where
  | notebookLoader
  | fileLoader
  | folderLoader
deriving DecidableEq, Repr

/-- `Dependency` — loader + path + `inherits_context` flag. -/
structure Dependency where
  loader : Loader
  path : String
  inherits_context : Bool
deriving DecidableEq, Repr

/-- `MaybeDependency` — result type of every resolver. -/
structure MaybeDependency where
  dependency : Option Dependency
  problems : List DependencyProblem
deriving DecidableEq, Repr

/-- Result of `KnownList.module_compatibility` (allow-list collaborator). -/
structure Compatibility where
  known : Bool
  problems : List DependencyProblem

/-- The `PathLookup` collaborator: a current working directory and path
resolution against the active lookup context. -/
structure PathLookup where
  cwd : String
  resolve : String → Option String

namespace ImportFileResolver

/-- `ImportFileResolver.resolve_file` (files.py lines 224-229): direct path
lookup; on success a `Dependency` on the absolute path (default
`inherits_context`, which is true upstream), on failure one
`file-not-found` problem. -/
def resolve_file (path_lookup : PathLookup) (path : String) : MaybeDependency :=
  match path_lookup.resolve path with
  | some absolute_path => ⟨some ⟨Loader.fileLoader, absolute_path, true⟩, []⟩
  | none => ⟨none, [⟨"file-not-found", "File not found: " ++ path⟩]⟩

/-- `ImportFileResolver._resolve_allow_list` (files.py lines 240-248). -/
def resolve_allow_list (allow_list : String → Compatibility) (name : String) :
    Option MaybeDependency :=
  let compatibility := allow_list name
  if !compatibility.known then none
  else if compatibility.problems = [] then some ⟨none, []⟩
  else some ⟨none, compatibility.problems⟩

/-- `name[i:].replace('.', '/')` on the character list of the remainder. -/
def replaceDots (cs : List Char) : String :=
  String.mk (cs.map fun c => if c = '.' then '/' else c)

/-- The loop body of `_resolve_import` for indices `i ≥ 1`: a further leading
dot appends `".."`, the first non-dot character appends the remainder with
dots replaced by `/` and breaks. -/
def importPartsTail : List Char → List String
  | [] => []
  | c :: rest =>
    if c = '.' then ".." :: importPartsTail rest
    else [replaceDots (c :: rest)]

/-- The `parts` list built by the loop of `_resolve_import`
(files.py lines 253-265): a leading single dot contributes the lookup
cwd (`path_lookup.cwd.as_posix()`); subsequent characters are handled by
`importPartsTail`. -/
def importParts (cwd : String) : List Char → List String
  | [] => []
  | c :: rest =>
    if c = '.' then cwd :: importPartsTail rest
    else [replaceDots (c :: rest)]

/-- The two probe candidates of `_resolve_import` (files.py line 266):
`<path>.py` then `<path>/__init__.py`, where `<path>` is the `/`-join of
the parts. -/
def importCandidates (cwd : String) (name : String) : List String :=
  let joined := String.intercalate "/" (importParts cwd name.toList)
  [joined ++ ".py", joined ++ "/__init__.py"]

/-- The parts contributed by the non-dot remainder of a dotted name: its
dots-to-slashes translation, or nothing when the remainder is empty. -/
def restParts (rest : List Char) : List String :=
  match rest with
  | [] => []
  | _ => [replaceDots rest]

/-- The spec's description of the dotted-name translation, stated directly
from its words: a leading single dot becomes the current lookup directory,
each additional leading dot becomes one parent-directory step (`".."`), and
the non-dot remainder has dots replaced by path separators. Written to be
compared with `importParts`, which is translated from the code. -/
def specParts (cwd : String) (leadingDots : Nat) (rest : List Char) : List String :=
  match leadingDots with
  | 0 => restParts rest
  | Nat.succ extra => cwd :: List.replicate extra ".." ++ restParts rest

/-- `ImportFileResolver._resolve_import` (files.py lines 250-273): empty name
is a `ucx-bug`; otherwise the first candidate that resolves under the lookup
context becomes a `Dependency` with `inherits_context = False`; `none` when
neither candidate resolves. -/
def resolve_import_inner (path_lookup : PathLookup) (name : String) :
    Option MaybeDependency :=
  if name = "" then some ⟨none, [⟨"ucx-bug", "Import name is empty"⟩]⟩
  else
    match (importCandidates path_lookup.cwd name).findSome? fun candidate =>
        (path_lookup.resolve candidate).map fun absolute_path =>
          MaybeDependency.mk (some ⟨Loader.fileLoader, absolute_path, false⟩) [] with
    | some maybe => some maybe
    | none => none

/-- `ImportFileResolver.resolve_import` (files.py lines 231-238): allow-list
check first, then the filesystem path search, then `import-not-found`. -/
def resolve_import (allow_list : String → Compatibility) (path_lookup : PathLookup)
    (name : String) : MaybeDependency :=
  match resolve_allow_list allow_list name with
  | some maybe => maybe
  | none =>
    match resolve_import_inner path_lookup name with
    | some maybe => maybe
    | none => ⟨none, [⟨"import-not-found", "Could not locate import: " ++ name⟩]⟩

end ImportFileResolver

/-- What `iterdir` reports about one direct child of a folder: its path and
its classification (`is_file`, `is_a_notebook`). -/
structure ChildEntry where
  path : String
  is_file : Bool
  is_notebook : Bool
deriving DecidableEq, Repr

/-- Split a character list on `/`, accumulating the current segment in
reverse. -/
def splitSegsAux (cur : List Char) : List Char → List String
  | [] => [String.mk cur.reverse]
  | c :: rest =>
    if c = '/' then String.mk cur.reverse :: splitSegsAux [] rest
    else splitSegsAux (c :: cur) rest

/-- The non-empty `/`-separated segments of a posix path. -/
def pathSegments (p : String) : List String :=
  (splitSegsAux [] p.toList).filter (· ≠ "")

/-- `Path.name`: the final segment of a posix path. -/
def pathName (p : String) : String :=
  (pathSegments p).getLast?.getD ""

namespace Folder

/-- The denylist of files.py line 56. -/
def denylist : List String :=
  ["__pycache__", ".git", ".github", ".venv", ".mypy_cache", "site-packages"]

/-- The child `Dependency` built by `Folder._build_dependency_graph`
(files.py lines 64-65): notebook loader if the child is a notebook, else
file loader if it is a file, else folder loader; `inherits_context` is
`is_notebook`. -/
def childDependency (child : ChildEntry) : Dependency :=
  let loader :=
    if child.is_notebook then Loader.notebookLoader
    else if child.is_file then Loader.fileLoader
    else Loader.folderLoader
  ⟨loader, child.path, child.is_notebook⟩

/-- `Folder._build_dependency_graph` (files.py lines 60-66) with the parent
graph's `register_dependency` abstracted as `reg`. Returns the yielded
problems together with the trace of dependencies registered on the parent. -/
def build_dependency_graph_inner (children : List ChildEntry)
    (reg : Dependency → List DependencyProblem) :
    List DependencyProblem × List Dependency :=
  let deps := children.map childDependency
  (deps.flatMap reg, deps)

/-- `Folder.build_dependency_graph` (files.py lines 54-58): prune when the
final path segment is denylisted, otherwise register every direct child. -/
def build_dependency_graph (path : String) (children : List ChildEntry)
    (reg : Dependency → List DependencyProblem) :
    List DependencyProblem × List Dependency :=
  if pathName path ∈ denylist then ([], [])
  else build_dependency_graph_inner children reg

end Folder

/-- An advice produced by a linter; only its `code` matters to the migrator. -/
structure Advice where
  code : String
deriving DecidableEq, Repr

namespace LocalFileMigrator

/-- `LocalFileMigrator._extensions` keys (files.py line 152). -/
def extensions : List String := [".py", ".sql"]

/-- The fixer loop of `_apply_file_fix` (files.py lines 187-194): fold over
the advices of the original code, threading the evolving code and the
`applied` flag; an advice without a fixer is skipped. -/
def fixLoop (fixer : String → Option (String → String)) (advices : List Advice)
    (code : String) : String × Bool :=
  advices.foldl
    (fun acc advice =>
      match fixer advice.code with
      | none => acc
      | some fix => (fix acc.1, true))
    (code, false)

/-- `LocalFileMigrator._apply_file_fix` (files.py lines 162-201).
`readResult` is the outcome of reading the file (`none` models a
`UnicodeDecodeError`); `lint` is `context.linter(language).lint`; `fixer`
is `context.fixer(language, ·)`. Returns the boolean result paired with
the content written back, `none` when the file is never written. -/
def apply_file_fix (suffix : String) (readResult : Option String)
    (lint : String → List Advice) (fixer : String → Option (String → String)) :
    Bool × Option String :=
  if suffix ∉ extensions then (false, none)
  else
    match readResult with
    | none => (false, none)
    | some code =>
      let result := fixLoop fixer (lint code) code
      if !result.2 then (false, none)
      else (true, some result.1)

end LocalFileMigrator

/-- Posix path normalisation: split on `/`, drop empty segments, let each
`..` segment cancel the preceding segment. Used only to compare a probe
path containing `..` steps with its normal form. -/
def normSegments : List String → List String → List String
  | acc, [] => acc
  | acc, s :: rest =>
    if s = ".." then normSegments acc.dropLast rest
    else normSegments (acc ++ [s]) rest

/-- Normal form of an absolute posix path string. -/
def normalizePath (p : String) : String :=
  "/" ++ String.intercalate "/" (normSegments [] (pathSegments p))

/-- Modelled from the spec: the resolver-chain semantics of
`DependencyResolver` (in `graph.py`, outside the provided sources). Each
resolver is consulted in turn; a result carrying a dependency, or carrying
problems, is terminal; a null dependency with empty problems means "not
applicable, try the next resolver in the chain". -/
def chainResolve (resolvers : List (String → MaybeDependency)) (name : String) :
    MaybeDependency :=
  match resolvers with
  | [] => ⟨none, []⟩
  | r :: rest =>
    let maybe := r name
    if maybe.dependency.isSome || !maybe.problems.isEmpty then maybe
    else chainResolve rest name

/-- A candidate object registered with the migration sequencer. -/
structure SeqObject where
  object_type : String
  object_id : String
deriving DecidableEq, Repr

/-- The sequencer's in-progress planning state: candidate nodes in first
registration order, and requirement edges `(x, y)` meaning "x requires y"
(y must be migrated before x). -/
structure SeqState where
  nodes : List SeqObject
  edges : List (SeqObject × SeqObject)
deriving DecidableEq, Repr

/-- A finalized migration step: the object plus its 1-based `step_number`. -/
structure MigrationStep where
  object_type : String
  object_id : String
  step_number : Nat
deriving DecidableEq, Repr

namespace MigrationSequencer

/-- Modelled from the spec: `MigrationSequencer.register_dependency`
(in `sequencing.py`, outside the provided sources). Inserts the object as a
candidate node if not already present (insertion order is kept), and when a
parent is supplied records the edge "parent requires object". -/
def register_dependency (s : SeqState) (parent : Option SeqObject) (o : SeqObject) :
    SeqState :=
  let nodes := if o ∈ s.nodes then s.nodes else s.nodes ++ [o]
  let edges :=
    match parent with
    | none => s.edges
    | some p => if (p, o) ∈ s.edges then s.edges else s.edges ++ [(p, o)]
  ⟨nodes, edges⟩

/-- A registration event: `(parent?, object)` as passed to
`register_dependency`. -/
def runRegistrations (events : List (Option SeqObject × SeqObject)) : SeqState :=
  events.foldl (fun s e => register_dependency s e.1 e.2) ⟨[], []⟩

/-- The direct requirements of `o` under the recorded edges. -/
def requirements (edges : List (SeqObject × SeqObject)) (o : SeqObject) :
    List SeqObject :=
  edges.filterMap fun e => if e.1 = o then some e.2 else none

/-- `o` is ready when every requirement has already been emitted. -/
def ready (edges : List (SeqObject × SeqObject)) (emitted : List SeqObject)
    (o : SeqObject) : Bool :=
  (requirements edges o).all (· ∈ emitted)

/-- Fuel-bounded reachability within the remaining nodes: can `target` be
reached from `start` by following requirement edges through remaining
nodes? -/
def reaches (edges : List (SeqObject × SeqObject)) (remaining : List SeqObject) :
    Nat → SeqObject → SeqObject → Bool
  | 0, _, _ => false
  | fuel + 1, start, target =>
    (requirements edges start).any fun y =>
      y ∈ remaining && (y = target || reaches edges remaining fuel y target)

/-- `o` lies on a requirement cycle among the remaining nodes. -/
def onCycle (edges : List (SeqObject × SeqObject)) (remaining : List SeqObject)
    (o : SeqObject) : Bool :=
  reaches edges remaining remaining.length o o

/-- Modelled from the spec: the next node to emit. Among nodes with no
remaining unmet requirement, the first in registration order; when none is
ready (a strongly-connected set of remaining nodes require each other), the
cycle is broken by taking, in registration order, the first remaining node
that lies on a requirement cycle — its mutual edges are recorded but no
longer block. -/
def pickNext (edges : List (SeqObject × SeqObject)) (remaining emitted : List SeqObject) :
    Option SeqObject :=
  match remaining.find? (ready edges emitted) with
  | some o => some o
  | none =>
    match remaining.find? (onCycle edges remaining) with
    | some o => some o
    | none => remaining.head?

/-- The emission loop of `generate_steps`: repeatedly pick the next node
until all nodes are emitted. -/
def emitAll (edges : List (SeqObject × SeqObject)) :
    Nat → List SeqObject → List SeqObject → List SeqObject
  | 0, _, emitted => emitted
  | fuel + 1, remaining, emitted =>
    match pickNext edges remaining emitted with
    | none => emitted
    | some o => emitAll edges fuel (remaining.erase o) (emitted ++ [o])

/-- Modelled from the spec: `MigrationSequencer.generate_steps`
(in `sequencing.py`, outside the provided sources): a stable topological
sort over the requirement edges, insertion-order tie-break, cycles
tolerated; `step_number` is the node's 1-based position in the final
order. -/
def generate_steps (s : SeqState) : List MigrationStep :=
  (emitAll s.edges s.nodes.length s.nodes []).enum.map fun p =>
    ⟨p.2.object_type, p.2.object_id, p.1 + 1⟩

end MigrationSequencer

/-- The registration trace of the cyclic sequencing test: root registered
first, then the depth-first visit of the graph root→a, root→b, a→b, b→a. -/
def cyclicRegistrations : List (Option SeqObject × SeqObject) :=
  [(none, ⟨"FILE", "root.py"⟩),
   (some ⟨"FILE", "root.py"⟩, ⟨"FILE", "a.py"⟩),
   (some ⟨"FILE", "a.py"⟩, ⟨"FILE", "b.py"⟩),
   (some ⟨"FILE", "b.py"⟩, ⟨"FILE", "a.py"⟩),
   (some ⟨"FILE", "root.py"⟩, ⟨"FILE", "b.py"⟩)]

/-- The sequencer steps generated for the cyclic test scenario. -/
def cyclicSteps : List MigrationStep :=
  MigrationSequencer.generate_steps (MigrationSequencer.runRegistrations cyclicRegistrations)

/-! ## Theorems -/

/-- Unfolding equation for `importPartsTail` on a non-empty remainder. -/
theorem importPartsTail_cons (c : Char) (cs : List Char) :
    ImportFileResolver.importPartsTail (c :: cs) =
      if c = '.' then ".." :: ImportFileResolver.importPartsTail cs
      else [ImportFileResolver.replaceDots (c :: cs)] := rfl

/-- Unfolding equation for `importParts` on a non-empty name. -/
theorem importParts_cons (cwd : String) (c : Char) (cs : List Char) :
    ImportFileResolver.importParts cwd (c :: cs) =
      if c = '.' then cwd :: ImportFileResolver.importPartsTail cs
      else [ImportFileResolver.replaceDots (c :: cs)] := rfl

/-- After the leading dot, each further leading dot contributes one `".."`
part and the non-dot remainder contributes its dots-to-slashes
translation. -/
theorem importPartsTail_replicate (k : Nat) (rest : List Char)
    (h : rest.head? ≠ some '.') :
    ImportFileResolver.importPartsTail (List.replicate k '.' ++ rest) =
      List.replicate k ".." ++ ImportFileResolver.restParts rest := by
  induction k with
  | zero =>
    cases rest with
    | nil => rfl
    | cons c cs =>
      have hc : ¬ c = '.' := fun hc => h (by simp [hc])
      simp [importPartsTail_cons, hc, ImportFileResolver.restParts]
  | succ j ih =>
    rw [List.replicate_succ, List.cons_append, importPartsTail_cons, if_pos rfl, ih,
      List.replicate_succ, List.cons_append]

/-- The `parts` loop of `_resolve_import` computes exactly the spec's
translation of a dotted name `dots^k ++ rest` (with `rest` not starting in
a dot). -/
theorem importParts_eq_specParts (cwd : String) (k : Nat) (rest : List Char)
    (h : rest.head? ≠ some '.') :
    ImportFileResolver.importParts cwd (List.replicate k '.' ++ rest) =
      ImportFileResolver.specParts cwd k rest := by
  cases k with
  | zero =>
    cases rest with
    | nil => rfl
    | cons c cs =>
      have hc : ¬ c = '.' := fun hc => h (by simp [hc])
      simp [importParts_cons, ImportFileResolver.specParts, hc, ImportFileResolver.restParts]
  | succ j =>
    rw [List.replicate_succ, List.cons_append, importParts_cons, if_pos rfl,
      importPartsTail_replicate j rest h]
    rfl

/-- C1: the dotted-name translation of `_resolve_import` matches the spec's
description (leading single dot → lookup cwd, each further leading dot →
one parent step, remainder dots → path separators); the resolver probes
`<path>.py` then `<path>/__init__.py` in that order and the first candidate
that resolves becomes a Dependency with `inherits_context = false`; and the
two concrete examples probe the claimed locations (the `..sibling`
candidates up to posix `..`-normalisation). -/
theorem claim_C1 :
    (∀ (cwd : String) (k : Nat) (rest : List Char), rest.head? ≠ some '.' →
      ImportFileResolver.importParts cwd (List.replicate k '.' ++ rest) =
        ImportFileResolver.specParts cwd k rest)
    ∧ (∀ (lookup : PathLookup) (name c₁ c₂ absolute_path : String),
        name ≠ "" →
        ImportFileResolver.importCandidates lookup.cwd name = [c₁, c₂] →
        (lookup.resolve c₁ = some absolute_path →
          ImportFileResolver.resolve_import_inner lookup name =
            some ⟨some ⟨Loader.fileLoader, absolute_path, false⟩, []⟩)
        ∧ (lookup.resolve c₁ = none → lookup.resolve c₂ = some absolute_path →
          ImportFileResolver.resolve_import_inner lookup name =
            some ⟨some ⟨Loader.fileLoader, absolute_path, false⟩, []⟩)
        ∧ (lookup.resolve c₁ = none → lookup.resolve c₂ = none →
          ImportFileResolver.resolve_import_inner lookup name = none))
    ∧ ImportFileResolver.importCandidates "/root/pkg" "." =
        ["/root/pkg.py", "/root/pkg/__init__.py"]
    ∧ (ImportFileResolver.importCandidates "/root/pkg" "..sibling").map normalizePath =
        ["/root/sibling.py", "/root/sibling/__init__.py"] := by
  refine ⟨importParts_eq_specParts, ?_, by decide, by decide⟩
  intro lookup name c₁ c₂ absolute_path hname hcand
  unfold ImportFileResolver.resolve_import_inner
  rw [if_neg hname, hcand]
  refine ⟨?_, ?_, ?_⟩
  · intro h₁
    simp [List.findSome?_cons, h₁]
  · intro h₁ h₂
    simp [List.findSome?_cons, h₁, h₂]
  · intro h₁ h₂
    simp [List.findSome?_cons, h₁, h₂]

/-- Witness for C1: from lookup directory `/root/pkg`, import name `.`
probes `/root/pkg.py` first and, when only `/root/pkg/__init__.py`
resolves, yields a Dependency on it with `inherits_context = false`. -/
theorem claim_C1_witness :
    ImportFileResolver.resolve_import_inner
        ⟨"/root/pkg", fun p => if p = "/root/pkg/__init__.py" then some p else none⟩
        "." =
      some ⟨some ⟨Loader.fileLoader, "/root/pkg/__init__.py", false⟩, []⟩ :=
  (claim_C1.2.1
      ⟨"/root/pkg", fun p => if p = "/root/pkg/__init__.py" then some p else none⟩
      "." "/root/pkg.py" "/root/pkg/__init__.py" "/root/pkg/__init__.py"
      (by decide) (by decide)).2.1 (by decide) (by decide)

/-- C2: for every import name for which the allow-list reports `known = true`,
`resolve_import` returns no dependency together with exactly the allow-list's
compatibility problems, and its result is independent of the lookup context —
the filesystem path search is never consulted even if a same-named file
exists. -/
theorem claim_C2 (allow_list : String → Compatibility) (lookup : PathLookup)
    (name : String) (h : (allow_list name).known = true) :
    ImportFileResolver.resolve_import allow_list lookup name =
        ⟨none, (allow_list name).problems⟩
      ∧ ∀ lookup' : PathLookup,
          ImportFileResolver.resolve_import allow_list lookup name =
            ImportFileResolver.resolve_import allow_list lookup' name := by
  have hres : ImportFileResolver.resolve_allow_list allow_list name =
      some ⟨none, (allow_list name).problems⟩ := by
    by_cases hp : (allow_list name).problems = []
    · simp [ImportFileResolver.resolve_allow_list, h, hp]
    · simp [ImportFileResolver.resolve_allow_list, h, hp]
  constructor
  · unfold ImportFileResolver.resolve_import
    rw [hres]
  · intro lookup'
    unfold ImportFileResolver.resolve_import
    rw [hres]

/-- Witness for C2: a known, unflagged module short-circuits with no
dependency and no problems. -/
theorem claim_C2_witness :
    ImportFileResolver.resolve_import (fun _ => ⟨true, []⟩)
      ⟨"/", fun _ => none⟩ "os" = ⟨none, []⟩ :=
  (claim_C2 (fun _ => ⟨true, []⟩) ⟨"/", fun _ => none⟩ "os" rfl).1

/-- Unfolding equation for `chainResolve` on a non-empty chain. -/
theorem chainResolve_cons (r : String → MaybeDependency)
    (rest : List (String → MaybeDependency)) (name : String) :
    chainResolve (r :: rest) name =
      if (r name).dependency.isSome || !(r name).problems.isEmpty then r name
      else chainResolve rest name := rfl

/-- C3: in the resolver chain, a null dependency with empty problems means
"not applicable": the next resolver is consulted; a null dependency with
problems is terminal; in particular whenever `resolve_import` returns a null
dependency with empty problems, a subsequent resolver is still consulted. -/
theorem claim_C3 :
    (∀ (r : String → MaybeDependency) (rest : List (String → MaybeDependency))
        (name : String), r name = ⟨none, []⟩ →
      chainResolve (r :: rest) name = chainResolve rest name)
    ∧ (∀ (r : String → MaybeDependency) (rest : List (String → MaybeDependency))
        (name : String), (r name).dependency = none → (r name).problems ≠ [] →
      chainResolve (r :: rest) name = r name)
    ∧ (∀ (allow_list : String → Compatibility) (lookup : PathLookup)
        (name : String) (rest : List (String → MaybeDependency)),
      ImportFileResolver.resolve_import allow_list lookup name = ⟨none, []⟩ →
      chainResolve (ImportFileResolver.resolve_import allow_list lookup :: rest) name =
        chainResolve rest name) := by
  refine ⟨?_, ?_, ?_⟩
  · intro r rest name h
    rw [chainResolve_cons, h]
    simp
  · intro r rest name hdep hprob
    rw [chainResolve_cons]
    simp [hdep, List.isEmpty_iff, hprob]
  · intro allow_list lookup name rest h
    rw [chainResolve_cons, h]
    simp

/-- Witness for C3: a known, unflagged import name is passed on to the next
resolver in the chain, whose answer becomes the chain's answer. -/
theorem claim_C3_witness :
    chainResolve
        [ImportFileResolver.resolve_import (fun _ => ⟨true, []⟩) ⟨"/", fun _ => none⟩,
         fun _ => ⟨none, [⟨"next-resolver", "consulted"⟩]⟩] "os" =
      ⟨none, [⟨"next-resolver", "consulted"⟩]⟩ := by
  rw [claim_C3.2.2 (fun _ => ⟨true, []⟩) ⟨"/", fun _ => none⟩ "os"
    [fun _ => ⟨none, [⟨"next-resolver", "consulted"⟩]⟩] rfl]
  rfl

/-- C4: for a name the allow-list does not know, an empty name yields exactly
one `ucx-bug` problem and never `import-not-found`; a non-empty name for
which neither probe candidate resolves yields exactly one `import-not-found`
problem. -/
theorem claim_C4 (allow_list : String → Compatibility) (lookup : PathLookup)
    (name : String) (h : (allow_list name).known = false) :
    (name = "" →
      ImportFileResolver.resolve_import allow_list lookup name =
        ⟨none, [⟨"ucx-bug", "Import name is empty"⟩]⟩)
    ∧ (name ≠ "" →
      (∀ c ∈ ImportFileResolver.importCandidates lookup.cwd name,
        lookup.resolve c = none) →
      ImportFileResolver.resolve_import allow_list lookup name =
        ⟨none, [⟨"import-not-found", "Could not locate import: " ++ name⟩]⟩) := by
  have hal : ImportFileResolver.resolve_allow_list allow_list name = none := by
    unfold ImportFileResolver.resolve_allow_list
    simp [h]
  constructor
  · intro hname
    unfold ImportFileResolver.resolve_import
    rw [hal]
    unfold ImportFileResolver.resolve_import_inner
    rw [if_pos hname]
  · intro hname hcand
    unfold ImportFileResolver.resolve_import
    rw [hal]
    unfold ImportFileResolver.resolve_import_inner
    rw [if_neg hname]
    have : (ImportFileResolver.importCandidates lookup.cwd name).findSome?
        (fun candidate => (lookup.resolve candidate).map fun absolute_path =>
          MaybeDependency.mk (some ⟨Loader.fileLoader, absolute_path, false⟩) []) = none := by
      rw [List.findSome?_eq_none_iff]
      intro c hc
      rw [hcand c hc]
      rfl
    rw [this]

/-- Witness for C4: with nothing allow-listed and a lookup that resolves
nothing, the empty name yields `ucx-bug` and a non-empty name yields
`import-not-found`. -/
theorem claim_C4_witness :
    ImportFileResolver.resolve_import (fun _ => ⟨false, []⟩) ⟨"/", fun _ => none⟩ "" =
        ⟨none, [⟨"ucx-bug", "Import name is empty"⟩]⟩
      ∧ ImportFileResolver.resolve_import (fun _ => ⟨false, []⟩) ⟨"/", fun _ => none⟩ "m" =
        ⟨none, [⟨"import-not-found", "Could not locate import: m"⟩]⟩ :=
  ⟨(claim_C4 (fun _ => ⟨false, []⟩) ⟨"/", fun _ => none⟩ "" rfl).1 rfl,
   (claim_C4 (fun _ => ⟨false, []⟩) ⟨"/", fun _ => none⟩ "m" rfl).2
     (by decide) (fun c _ => rfl)⟩

/-- C5: a Folder whose final path segment is denylisted registers zero child
dependencies and returns zero problems; the match is against the final path
segment only — any other final segment proceeds to register the direct
children. -/
theorem claim_C5 (path : String) (children : List ChildEntry)
    (reg : Dependency → List DependencyProblem) :
    (pathName path ∈ Folder.denylist →
      Folder.build_dependency_graph path children reg = ([], []))
    ∧ (pathName path ∉ Folder.denylist →
      Folder.build_dependency_graph path children reg =
        Folder.build_dependency_graph_inner children reg) := by
  constructor
  · intro h
    unfold Folder.build_dependency_graph
    rw [if_pos h]
  · intro h
    unfold Folder.build_dependency_graph
    rw [if_neg h]

/-- Witness for C5: `/repo/.git` is pruned even with a child present, while
`/repo/.git/sub` (denylisted name in a non-final segment) is not pruned. -/
theorem claim_C5_witness :
    Folder.build_dependency_graph "/repo/.git"
        [⟨"/repo/.git/config", true, false⟩] (fun d => [⟨"c", d.path⟩]) = ([], [])
      ∧ Folder.build_dependency_graph "/repo/.git/sub"
        [⟨"/repo/.git/sub/f.py", true, false⟩] (fun d => [⟨"c", d.path⟩]) =
        ([⟨"c", "/repo/.git/sub/f.py"⟩],
         [⟨Loader.fileLoader, "/repo/.git/sub/f.py", false⟩]) :=
  ⟨(claim_C5 "/repo/.git" [⟨"/repo/.git/config", true, false⟩]
      (fun d => [⟨"c", d.path⟩])).1 (by decide),
   ((claim_C5 "/repo/.git/sub" [⟨"/repo/.git/sub/f.py", true, false⟩]
      (fun d => [⟨"c", d.path⟩])).2 (by decide)).trans rfl⟩

/-- C8: `resolve_file` either carries a Dependency on the resolved absolute
path with no problems, or no dependency with exactly one `file-not-found`
problem; being a total function, no exception crosses the boundary. -/
theorem claim_C8 (lookup : PathLookup) (path : String) :
    (∀ absolute_path, lookup.resolve path = some absolute_path →
      ImportFileResolver.resolve_file lookup path =
        ⟨some ⟨Loader.fileLoader, absolute_path, true⟩, []⟩)
    ∧ (lookup.resolve path = none →
      ImportFileResolver.resolve_file lookup path =
        ⟨none, [⟨"file-not-found", "File not found: " ++ path⟩]⟩) := by
  constructor
  · intro absolute_path h
    unfold ImportFileResolver.resolve_file
    rw [h]
  · intro h
    unfold ImportFileResolver.resolve_file
    rw [h]

/-- Witness for C8: both outcomes at concrete lookups. -/
theorem claim_C8_witness :
    ImportFileResolver.resolve_file ⟨"/", fun p => some ("/abs" ++ p)⟩ "/x.py" =
        ⟨some ⟨Loader.fileLoader, "/abs/x.py", true⟩, []⟩
      ∧ ImportFileResolver.resolve_file ⟨"/", fun _ => none⟩ "/x.py" =
        ⟨none, [⟨"file-not-found", "File not found: /x.py"⟩]⟩ :=
  ⟨(claim_C8 ⟨"/", fun p => some ("/abs" ++ p)⟩ "/x.py").1 "/abs/x.py" rfl,
   (claim_C8 ⟨"/", fun _ => none⟩ "/x.py").2 rfl⟩

/-- C6: the cyclic scenario of the sequencing test — registrations in the
depth-first visit order of the graph root→a, root→b, a→b, b→a — yields
exactly 3 steps, one per distinct artifact, with the root's object id as
the final step. -/
theorem claim_C6 :
    cyclicSteps.length = 3
      ∧ cyclicSteps.map MigrationStep.object_id = ["a.py", "b.py", "root.py"]
      ∧ (cyclicSteps.map MigrationStep.object_id).Nodup
      ∧ cyclicSteps.map MigrationStep.step_number = [1, 2, 3]
      ∧ (cyclicSteps.map MigrationStep.object_id).getLast? = some "root.py" := by
  decide

/-- C7: the sequencer plan is a function of the registration calls alone —
two planning runs fed identical registrations in identical order produce
identical steps, hence identical `step_number` assignments. -/
theorem claim_C7 (events : List (Option SeqObject × SeqObject)) (s₁ s₂ : SeqState)
    (h₁ : s₁ = MigrationSequencer.runRegistrations events)
    (h₂ : s₂ = MigrationSequencer.runRegistrations events) :
    MigrationSequencer.generate_steps s₁ = MigrationSequencer.generate_steps s₂ := by
  rw [h₁, h₂]

/-- Witness for C7: two runs over the same concrete registrations coincide. -/
theorem claim_C7_witness :
    MigrationSequencer.generate_steps (MigrationSequencer.runRegistrations
        [(none, ⟨"JOB", "j"⟩), (some ⟨"JOB", "j"⟩, ⟨"TASK", "t"⟩)]) =
      MigrationSequencer.generate_steps (MigrationSequencer.runRegistrations
        [(none, ⟨"JOB", "j"⟩), (some ⟨"JOB", "j"⟩, ⟨"TASK", "t"⟩)]) :=
  claim_C7 [(none, ⟨"JOB", "j"⟩), (some ⟨"JOB", "j"⟩, ⟨"TASK", "t"⟩)] _ _ rfl rfl

/-- C9: for a non-denylisted Folder, each direct child produces exactly one
registered Dependency, classified notebook-loader / file-loader /
folder-loader with `inherits_context` true exactly for notebooks; the
yielded problems are those of the per-child registrations, over direct
children only. -/
theorem claim_C9 (path : String) (children : List ChildEntry)
    (reg : Dependency → List DependencyProblem)
    (h : pathName path ∉ Folder.denylist) :
    (Folder.build_dependency_graph path children reg).2 =
        children.map Folder.childDependency
      ∧ (Folder.build_dependency_graph path children reg).1 =
        (children.map Folder.childDependency).flatMap reg
      ∧ ∀ c ∈ children,
          (Folder.childDependency c).loader =
            (if c.is_notebook then Loader.notebookLoader
             else if c.is_file then Loader.fileLoader
             else Loader.folderLoader)
          ∧ (Folder.childDependency c).inherits_context = c.is_notebook
          ∧ (Folder.childDependency c).path = c.path := by
  have hb : Folder.build_dependency_graph path children reg =
      Folder.build_dependency_graph_inner children reg := by
    unfold Folder.build_dependency_graph
    rw [if_neg h]
  exact ⟨by rw [hb]; rfl, by rw [hb]; rfl, fun c _ => ⟨rfl, rfl, rfl⟩⟩

/-- Witness for C9: a folder with one notebook, one plain file and one
sub-directory registers exactly the three classified dependencies. -/
theorem claim_C9_witness :
    (Folder.build_dependency_graph "/repo/src"
        [⟨"/repo/src/n.py", true, true⟩, ⟨"/repo/src/f.py", true, false⟩,
         ⟨"/repo/src/d", false, false⟩]
        (fun d => [⟨"p", d.path⟩])).2 =
      [⟨Loader.notebookLoader, "/repo/src/n.py", true⟩,
       ⟨Loader.fileLoader, "/repo/src/f.py", false⟩,
       ⟨Loader.folderLoader, "/repo/src/d", false⟩] := by
  rw [(claim_C9 "/repo/src"
    [⟨"/repo/src/n.py", true, true⟩, ⟨"/repo/src/f.py", true, false⟩,
     ⟨"/repo/src/d", false, false⟩]
    (fun d => [⟨"p", d.path⟩]) (by decide)).1]
  rfl

/-- Folding the fixer loop over advices none of which has a fixer leaves the
accumulator unchanged. -/
theorem fixFold_of_no_fixer (fixer : String → Option (String → String)) :
    ∀ (l : List Advice) (acc : String × Bool),
      (∀ a ∈ l, fixer a.code = none) →
      l.foldl (fun acc advice =>
        match fixer advice.code with
        | none => acc
        | some fix => (fix acc.1, true)) acc = acc := by
  intro l
  induction l with
  | nil => intro acc _; rfl
  | cons a l ih =>
    intro acc h
    rw [List.foldl_cons, h a (List.mem_cons_self a l)]
    exact ih acc fun b hb => h b (List.mem_cons_of_mem a hb)

/-- If the fixer loop ends with the `applied` flag set, it started set or
some advice had a fixer. -/
theorem fixFold_applied (fixer : String → Option (String → String)) :
    ∀ (l : List Advice) (acc : String × Bool),
      (l.foldl (fun acc advice =>
        match fixer advice.code with
        | none => acc
        | some fix => (fix acc.1, true)) acc).2 = true →
      acc.2 = true ∨ ∃ a ∈ l, (fixer a.code).isSome := by
  intro l
  induction l with
  | nil => intro acc h; exact Or.inl h
  | cons a l ih =>
    intro acc h
    rw [List.foldl_cons] at h
    cases hf : fixer a.code with
    | none =>
      rw [hf] at h
      rcases ih acc h with h' | ⟨b, hb, hfb⟩
      · exact Or.inl h'
      · exact Or.inr ⟨b, List.mem_cons_of_mem a hb, hfb⟩
    | some fix =>
      exact Or.inr ⟨a, List.mem_cons_self a l, by rw [hf]; rfl⟩

/-- Reduction of `apply_file_fix` for a supported suffix and a decodable
file. -/
theorem apply_file_fix_some (suffix code : String) (lint : String → List Advice)
    (fixer : String → Option (String → String))
    (hs : ¬ suffix ∉ LocalFileMigrator.extensions) :
    LocalFileMigrator.apply_file_fix suffix (some code) lint fixer =
      (let result := LocalFileMigrator.fixLoop fixer (lint code) code
       if !result.2 then (false, none) else (true, some result.1)) := by
  unfold LocalFileMigrator.apply_file_fix
  rw [if_neg hs]

/-- C10: `_apply_file_fix` returns `False` without writing for unsupported
suffixes, undecodable files, and supported files none of whose advices has
a fixer; the file content is written back exactly when the call returns
`True`, which requires at least one advice with a fixer. -/
theorem claim_C10 (suffix : String) (readResult : Option String)
    (lint : String → List Advice) (fixer : String → Option (String → String)) :
    (suffix ∉ LocalFileMigrator.extensions →
      LocalFileMigrator.apply_file_fix suffix readResult lint fixer = (false, none))
    ∧ (readResult = none →
      LocalFileMigrator.apply_file_fix suffix readResult lint fixer = (false, none))
    ∧ (∀ code, readResult = some code → (∀ a ∈ lint code, fixer a.code = none) →
      LocalFileMigrator.apply_file_fix suffix readResult lint fixer = (false, none))
    ∧ (LocalFileMigrator.apply_file_fix suffix readResult lint fixer).2.isSome =
        (LocalFileMigrator.apply_file_fix suffix readResult lint fixer).1
    ∧ ((LocalFileMigrator.apply_file_fix suffix readResult lint fixer).1 = true →
      ∃ code, readResult = some code ∧ ∃ a ∈ lint code, (fixer a.code).isSome) := by
  refine ⟨?_, ?_, ?_, ?_, ?_⟩
  · intro h
    unfold LocalFileMigrator.apply_file_fix
    rw [if_pos h]
  · intro h
    subst h
    unfold LocalFileMigrator.apply_file_fix
    by_cases hs : suffix ∉ LocalFileMigrator.extensions
    · rw [if_pos hs]
    · rw [if_neg hs]
  · intro code hr hnone
    subst hr
    by_cases hs : suffix ∉ LocalFileMigrator.extensions
    · unfold LocalFileMigrator.apply_file_fix
      rw [if_pos hs]
    · rw [apply_file_fix_some suffix code lint fixer hs]
      have hfl : LocalFileMigrator.fixLoop fixer (lint code) code = (code, false) :=
        fixFold_of_no_fixer fixer (lint code) (code, false) hnone
      rw [hfl]
      rfl
  · by_cases hs : suffix ∉ LocalFileMigrator.extensions
    · unfold LocalFileMigrator.apply_file_fix
      rw [if_pos hs]
      rfl
    · cases readResult with
      | none =>
        unfold LocalFileMigrator.apply_file_fix
        rw [if_neg hs]
        rfl
      | some code =>
        rw [apply_file_fix_some suffix code lint fixer hs]
        rcases hres : LocalFileMigrator.fixLoop fixer (lint code) code with ⟨c', flag⟩
        cases flag <;> rfl
  · intro h1
    by_cases hs : suffix ∉ LocalFileMigrator.extensions
    · exfalso
      unfold LocalFileMigrator.apply_file_fix at h1
      rw [if_pos hs] at h1
      exact Bool.false_ne_true h1
    · cases readResult with
      | none =>
        exfalso
        unfold LocalFileMigrator.apply_file_fix at h1
        rw [if_neg hs] at h1
        exact Bool.false_ne_true h1
      | some code =>
        refine ⟨code, rfl, ?_⟩
        rw [apply_file_fix_some suffix code lint fixer hs] at h1
        rcases hres : LocalFileMigrator.fixLoop fixer (lint code) code with ⟨c', flag⟩
        rw [hres] at h1
        cases flag with
        | false => simp at h1
        | true =>
          have h2 : (LocalFileMigrator.fixLoop fixer (lint code) code).2 = true := by
            rw [hres]
          rcases fixFold_applied fixer (lint code) (code, false) h2 with h' | h'
          · simp at h'
          · exact h'

/-- Witness for C10: unsupported suffix, undecodable file, and a supported
file without fixers all return `False` with no write. -/
theorem claim_C10_witness :
    LocalFileMigrator.apply_file_fix ".txt" (some "code") (fun _ => []) (fun _ => none) =
        (false, none)
      ∧ LocalFileMigrator.apply_file_fix ".py" none (fun _ => []) (fun _ => none) =
        (false, none)
      ∧ LocalFileMigrator.apply_file_fix ".py" (some "code")
          (fun _ => [⟨"a"⟩]) (fun _ => none) = (false, none) :=
  ⟨(claim_C10 ".txt" (some "code") (fun _ => []) (fun _ => none)).1 (by decide),
   (claim_C10 ".py" none (fun _ => []) (fun _ => none)).2.1 rfl,
   (claim_C10 ".py" (some "code") (fun _ => [⟨"a"⟩]) (fun _ => none)).2.2.1 "code" rfl
     (fun _ _ => rfl)⟩

end UCX
